import Mathlib

/-!
Verification of the commure-visibility-tracker repository.

This file shallowly embeds the Python source of the activity-tracking tool
(src/models.py, src/_archive/matcher.py, src/_archive/auto_themes.py,
src/cli/review.py, src/collectors/*.py, src/agent/nightly.py,
src/agent/simple_recap.py, src/_archive/nightly.py) into Lean and proves or
refutes the specification claims about it.

Conventions of the embedding:
* Python floats are modelled as rationals (`ℚ`); all constants in the code
  (0.4, 0.25, ...) are exact decimal literals, so rational arithmetic agrees
  with the comparisons the claims are about.
* `datetime` values are modelled as `Int` microseconds since the epoch
  (`DateTime`).  `isoformat`/`fromisoformat` form a bijection on naive
  datetimes, so a serialized datetime is carried inside JSON by the dedicated
  constructor `Json.time`; the prefix `isoformat()[:16]` ("YYYY-MM-DDTHH:MM")
  identifies two datetimes exactly when their floor-to-minute values agree,
  which is `minute_trunc`.
* Python dicts are association lists that keep insertion order; updating an
  existing key keeps its position (`dict_set`), exactly as CPython does.
* Fallible Python code (KeyError, ValueError, FileNotFoundError) is modelled
  with `Option`/`Except`.
-/

namespace Tracker

/-- Python `round()` on a rational value: round half to even (banker's
rounding), as used by `round(count / total * 100)`. -/
def pyRound (q : ℚ) : ℤ :=
  let f : ℤ := ⌊q⌋
  let r : ℚ := q - f
  if r < 1/2 then f
  else if 1/2 < r then f + 1
  else if f % 2 = 0 then f else f + 1

/-- Python `needle in hay` on strings: substring containment. -/
def strIn (needle hay : String) : Bool :=
  hay.toList.tails.any (fun t => needle.toList.isPrefixOf t)

/-- Python `s.strip(c)` for a single character: drop it from both ends. -/
def stripChar (c : Char) (s : String) : String :=
  let l := s.toList.dropWhile (· = c)
  String.mk ((l.reverse.dropWhile (· = c)).reverse)

/-- A `datetime` value: microseconds since the epoch (naive datetimes form a
totally ordered set; the integer timeline is a faithful carrier). -/
abbrev DateTime := Int

/-- Truncation of a datetime to the minute: two datetimes have the same
`isoformat()[:16]` prefix exactly when they lie in the same minute. -/
def minute_trunc (t : DateTime) : Int := t.fdiv 60000000

/-- JSON values as produced by `json.load`/consumed by `json.dump`, plus the
constructor `time` carrying a datetime that travels through JSON as its
`isoformat()` string (`fromisoformat` is its exact inverse on naive
datetimes). -/
inductive Json where
  | null
  | bool (b : Bool)
  | str (s : String)
  | num (q : ℚ)
  | time (t : DateTime)
  | arr (xs : List Json)
  | obj (fields : List (String × Json))

/-- Lookup of a key in the field list of a JSON object (first occurrence). -/
def lookupField : List (String × Json) → String → Option Json
  | [], _ => none
  | (k', v) :: rest, k => if k' = k then some v else lookupField rest k

/-- Python `d.get(k)` / `d[k]` presence: `none` models a missing key. -/
def Json.get? : Json → String → Option Json
  | .obj fields, k => lookupField fields k
  | _, _ => none

/-- Python truthiness of a JSON value (`if data.get(k):`). -/
def Json.truthy : Json → Bool
  | .null => false
  | .bool b => b
  | .str s => s ≠ ""
  | .num q => q ≠ 0
  | .time _ => true
  | .arr xs => !xs.isEmpty
  | .obj fields => !fields.isEmpty

/-- Python `raw_data.get(k, "")`-style string access: a string value or `""`. -/
def Json.getStr (j : Json) (k : String) : String :=
  match j.get? k with
  | some (.str s) => s
  | _ => ""

/-- Python `raw_data.get(k)` returning an optional string. -/
def Json.getStr? (j : Json) (k : String) : Option String :=
  match j.get? k with
  | some (.str s) => some s
  | _ => none

/-- Python `raw_data.get(k, [])` iterated as strings: the string elements of
the stored list, `[]` when missing. -/
def Json.getStrList (j : Json) (k : String) : List String :=
  match j.get? k with
  | some (.arr xs) => xs.filterMap (fun | .str s => some s | _ => none)
  | _ => []

/-! ## models.py -/

/-- Enum `ActivitySource` of models.py. -/
inductive ActivitySource where
  | filesystem
  | git
  | claude
  | slack
  | manual
deriving DecidableEq

/-- The `.value` string of an `ActivitySource` member. -/
def ActivitySource.value : ActivitySource → String
  | .filesystem => "filesystem"
  | .git => "git"
  | .claude => "claude"
  | .slack => "slack"
  | .manual => "manual"

/-- `ActivitySource(s)`: enum lookup by value, raising (`none`) when absent. -/
def ActivitySource.ofValue? : String → Option ActivitySource
  | "filesystem" => some .filesystem
  | "git" => some .git
  | "claude" => some .claude
  | "slack" => some .slack
  | "manual" => some .manual
  | _ => none

/-- Enum `TaskStatus` of models.py. -/
inductive TaskStatus where
  | todo
  | in_progress
  | done
deriving DecidableEq

/-- The `.value` string of a `TaskStatus` member. -/
def TaskStatus.value : TaskStatus → String
  | .todo => "todo"
  | .in_progress => "in_progress"
  | .done => "done"

/-- `TaskStatus(s)`: enum lookup by value. -/
def TaskStatus.ofValue? : String → Option TaskStatus
  | "todo" => some .todo
  | "in_progress" => some .in_progress
  | "done" => some .done
  | _ => none

/-- Enum `ThemeStatus` of models.py. -/
inductive ThemeStatus where
  | planned
  | active
  | blocked
  | complete
deriving DecidableEq

/-- The `.value` string of a `ThemeStatus` member. -/
def ThemeStatus.value : ThemeStatus → String
  | .planned => "planned"
  | .active => "active"
  | .blocked => "blocked"
  | .complete => "complete"

/-- `ThemeStatus(s)`: enum lookup by value. -/
def ThemeStatus.ofValue? : String → Option ThemeStatus
  | "planned" => some .planned
  | "active" => some .active
  | "blocked" => some .blocked
  | "complete" => some .complete
  | _ => none

/-- Enum `Privacy` of models.py. -/
inductive Privacy where
  | public
  | private_
deriving DecidableEq

/-- The `.value` string of a `Privacy` member. -/
def Privacy.value : Privacy → String
  | .public => "public"
  | .private_ => "private"

/-- `Privacy(s)`: enum lookup by value. -/
def Privacy.ofValue? : String → Option Privacy
  | "public" => some .public
  | "private" => some .private_
  | _ => none

/-- Dataclass `Activity` of models.py.  `raw_data` is an arbitrary JSON
dictionary carried through unchanged. -/
structure Activity where
  source : ActivitySource
  timestamp : DateTime
  description : String
  confidence : ℚ := 1
  raw_data : Json := .obj []
  project_path : Option String := none

/-- `None`-or-string serialized into JSON. -/
def optStrJson : Option String → Json
  | none => .null
  | some s => .str s

/-- `None`-or-datetime serialized by `x.isoformat() if x else None`. -/
def optTimeJson : Option DateTime → Json
  | none => .null
  | some t => .time t

/-- `Activity.to_dict` of models.py. -/
def Activity.to_dict (a : Activity) : Json :=
  .obj [
    ("source", .str a.source.value),
    ("timestamp", .time a.timestamp),
    ("description", .str a.description),
    ("confidence", .num a.confidence),
    ("raw_data", a.raw_data),
    ("project_path", optStrJson a.project_path)
  ]

/-- `Activity.from_dict` of models.py: `data["source"]`/`data["timestamp"]`/
`data["description"]` raise on a missing key (`none`); `confidence` and
`raw_data` default when absent; `project_path` reads a nullable string. -/
def Activity.from_dict (j : Json) : Option Activity := do
  let source ← match j.get? "source" with
    | some (.str s) => ActivitySource.ofValue? s
    | _ => none
  let timestamp ← match j.get? "timestamp" with
    | some (.time t) => some t
    | _ => none
  let description ← match j.get? "description" with
    | some (.str s) => some s
    | _ => none
  let confidence ← match j.get? "confidence" with
    | none => some (1 : ℚ)
    | some (.num q) => some q
    | some _ => none
  let raw_data := (j.get? "raw_data").getD (.obj [])
  let project_path ← match j.get? "project_path" with
    | none => some none
    | some .null => some none
    | some (.str s) => some (some s)
    | some _ => none
  pure { source, timestamp, description, confidence, raw_data, project_path }

/-- Dataclass `Task` of models.py. -/
structure Task where
  id : String
  description : String
  status : TaskStatus := .todo
  last_touched : Option DateTime := none
  artifacts : List String := []
  activities : List Activity := []

/-- `Task.to_dict` of models.py. -/
def Task.to_dict (t : Task) : Json :=
  .obj [
    ("id", .str t.id),
    ("description", .str t.description),
    ("status", .str t.status.value),
    ("last_touched", optTimeJson t.last_touched),
    ("artifacts", .arr (t.artifacts.map .str)),
    ("activities", .arr (t.activities.map Activity.to_dict))
  ]

/-- Python `data.get(k, [])` of a list field, reading string items. -/
def getStrListD (j : Json) (k : String) : Option (List String) :=
  match j.get? k with
  | none => some []
  | some (.arr xs) => xs.mapM (fun | .str s => some s | _ => none)
  | some _ => none

/-- Python `data.get(k, [])` of a list field holding serialized objects. -/
def getObjList (j : Json) (k : String) : Option (List Json) :=
  match j.get? k with
  | none => some []
  | some (.arr xs) => some xs
  | some _ => none

/-- Python `fromisoformat(data[k]) if data.get(k) else None`. -/
def getOptTime (j : Json) (k : String) : Option (Option DateTime) :=
  match j.get? k with
  | none => some none
  | some v =>
    if v.truthy then
      match v with
      | .time t => some (some t)
      | _ => none
    else some none

/-- `Task.from_dict` of models.py. -/
def Task.from_dict (j : Json) : Option Task := do
  let id ← match j.get? "id" with
    | some (.str s) => some s
    | _ => none
  let description ← match j.get? "description" with
    | some (.str s) => some s
    | _ => none
  let status ← match j.get? "status" with
    | some (.str s) => TaskStatus.ofValue? s
    | _ => none
  let last_touched ← getOptTime j "last_touched"
  let artifacts ← getStrListD j "artifacts"
  let activities ← (← getObjList j "activities").mapM Activity.from_dict
  pure { id, description, status, last_touched, artifacts, activities }

/-- Dataclass `Theme` of models.py. -/
structure Theme where
  id : String
  name : String
  status : ThemeStatus := .planned
  notes : String := ""
  tasks : List Task := []
  last_touched : Option DateTime := none

/-- `Theme.to_dict` of models.py. -/
def Theme.to_dict (t : Theme) : Json :=
  .obj [
    ("id", .str t.id),
    ("name", .str t.name),
    ("status", .str t.status.value),
    ("notes", .str t.notes),
    ("tasks", .arr (t.tasks.map Task.to_dict)),
    ("last_touched", optTimeJson t.last_touched)
  ]

/-- `Theme.from_dict` of models.py. -/
def Theme.from_dict (j : Json) : Option Theme := do
  let id ← match j.get? "id" with
    | some (.str s) => some s
    | _ => none
  let name ← match j.get? "name" with
    | some (.str s) => some s
    | _ => none
  let status ← match j.get? "status" with
    | some (.str s) => ThemeStatus.ofValue? s
    | _ => none
  let notes ← match j.get? "notes" with
    | none => some ""
    | some (.str s) => some s
    | some _ => none
  let tasks ← (← getObjList j "tasks").mapM Task.from_dict
  let last_touched ← getOptTime j "last_touched"
  pure { id, name, status, notes, tasks, last_touched }

/-- Dataclass `Project` of models.py. -/
structure Project where
  id : String
  name : String
  team : String
  folder_path : String
  privacy : Privacy := .public
  themes : List Theme := []

/-- `Project.to_dict` of models.py. -/
def Project.to_dict (p : Project) : Json :=
  .obj [
    ("id", .str p.id),
    ("name", .str p.name),
    ("team", .str p.team),
    ("folder_path", .str p.folder_path),
    ("privacy", .str p.privacy.value),
    ("themes", .arr (p.themes.map Theme.to_dict))
  ]

/-- `Project.from_dict` of models.py; `privacy` defaults to `"public"`. -/
def Project.from_dict (j : Json) : Option Project := do
  let id ← match j.get? "id" with
    | some (.str s) => some s
    | _ => none
  let name ← match j.get? "name" with
    | some (.str s) => some s
    | _ => none
  let team ← match j.get? "team" with
    | some (.str s) => some s
    | _ => none
  let folder_path ← match j.get? "folder_path" with
    | some (.str s) => some s
    | _ => none
  let privacy ← match j.get? "privacy" with
    | none => some Privacy.public
    | some (.str s) => Privacy.ofValue? s
    | some _ => none
  let themes ← (← getObjList j "themes").mapM Theme.from_dict
  pure { id, name, team, folder_path, privacy, themes }

/-- Dataclass `ProposedChange` of models.py: `approved` is the nullable
tri-state (None = pending, True = approved, False = rejected). -/
structure ProposedChange where
  id : String
  change_type : String
  description : String
  details : Json := .obj []
  created_at : DateTime
  approved : Option Bool := none

/-- `ProposedChange.to_dict` of models.py. -/
def ProposedChange.to_dict (c : ProposedChange) : Json :=
  .obj [
    ("id", .str c.id),
    ("change_type", .str c.change_type),
    ("description", .str c.description),
    ("details", c.details),
    ("created_at", .time c.created_at),
    ("approved", match c.approved with | none => .null | some b => .bool b)
  ]

/-- `ProposedChange.from_dict` of models.py; a missing `created_at` falls back
to `datetime.now()`, passed in as `now`. -/
def ProposedChange.from_dict (now : DateTime) (j : Json) : Option ProposedChange := do
  let id ← match j.get? "id" with
    | some (.str s) => some s
    | _ => none
  let change_type ← match j.get? "change_type" with
    | some (.str s) => some s
    | _ => none
  let description ← match j.get? "description" with
    | some (.str s) => some s
    | _ => none
  let details := (j.get? "details").getD (.obj [])
  let created_at ← match j.get? "created_at" with
    | none => some now
    | some v =>
      if v.truthy then
        match v with
        | .time t => some t
        | _ => none
      else some now
  let approved ← match j.get? "approved" with
    | none => some none
    | some .null => some none
    | some (.bool b) => some (some b)
    | some _ => none
  pure { id, change_type, description, details, created_at, approved }

/-- Dataclass `Roadmap` of models.py: the root aggregate. -/
structure Roadmap where
  version : String := "1.0"
  last_updated : Option DateTime := none
  projects : List Project := []
  pending_changes : List ProposedChange := []

/-- `Roadmap.to_dict` of models.py. -/
def Roadmap.to_dict (r : Roadmap) : Json :=
  .obj [
    ("version", .str r.version),
    ("last_updated", optTimeJson r.last_updated),
    ("projects", .arr (r.projects.map Project.to_dict)),
    ("pending_changes", .arr (r.pending_changes.map ProposedChange.to_dict))
  ]

/-- `Roadmap.from_dict` of models.py. -/
def Roadmap.from_dict (now : DateTime) (j : Json) : Option Roadmap := do
  let version ← match j.get? "version" with
    | none => some "1.0"
    | some (.str s) => some s
    | some _ => none
  let last_updated ← getOptTime j "last_updated"
  let projects ← (← getObjList j "projects").mapM Project.from_dict
  let pending_changes ← (← getObjList j "pending_changes").mapM (ProposedChange.from_dict now)
  pure { version, last_updated, projects, pending_changes }

/-! ## _archive/matcher.py -/

/-- Generic lookup in an insertion-ordered Python dict (first occurrence of
the key; CPython keys are unique, so first = only). -/
def pyLookup {V : Type} : List (String × V) → String → Option V
  | [], _ => none
  | (k', v) :: rest, k => if k' = k then some v else pyLookup rest k

/-- Python `d[k] = v`: overwrite keeps the key's position, a new key is
appended at the end. -/
def dict_set {V : Type} (d : List (String × V)) (k : String) (v : V) : List (String × V) :=
  if d.any (fun p => p.1 = k) then d.map (fun p => if p.1 = k then (k, v) else p)
  else d ++ [(k, v)]

/-- `defaultdict(list)` append: extend the list at the key, creating it at the
end of the dict when absent. -/
def dict_append {V : Type} (d : List (String × List V)) (k : String) (v : V) :
    List (String × List V) :=
  if d.any (fun p => p.1 = k) then d.map (fun p => if p.1 = k then (p.1, p.2 ++ [v]) else p)
  else d ++ [(k, [v])]

/-- Python `s.split()`: split on whitespace runs, discarding empty pieces. -/
def pySplitWS (s : String) : List String :=
  (s.split (fun c => c.isWhitespace)).filter (fun w => w ≠ "")

/-- One entry of the `projects` list of projects.json, as read by
`ActivityMatcher._build_lookup_tables` (`project.get(...)` with defaults). -/
structure ProjectCfg where
  name : String := ""
  id : String := ""
  folder_path : String := ""
  aliases : List String := []
  slack_channels : List String := []

/-- The tags of the human-readable strings appended to `MatchResult.signals`
(`f"path match (..%)"`, `"keyword match"`, `f"source hint (..)"`,
`"explicit project"`). -/
inductive Signal where
  | path_match (pct : ℤ)
  | keyword_match
  | source_hint (src : ActivitySource)
  | explicit_project
deriving DecidableEq

/-- Dataclass `MatchResult` of matcher.py. -/
structure MatchResult where
  project : Option String := none
  theme_id : Option String := none
  confidence : ℚ := 0
  signals : List Signal := []
deriving DecidableEq

/-- Class `ActivityMatcher`: the roadmap and the projects config it is
constructed from. -/
structure ActivityMatcher where
  roadmap : Roadmap
  projects_config : List ProjectCfg

/-- Signal weight `ActivityMatcher.PATH_WEIGHT`. -/
def ActivityMatcher.PATH_WEIGHT : ℚ := 0.4

/-- Signal weight `ActivityMatcher.KEYWORD_WEIGHT`. -/
def ActivityMatcher.KEYWORD_WEIGHT : ℚ := 0.25

/-- Signal weight `ActivityMatcher.CONTEXT_WEIGHT`. -/
def ActivityMatcher.CONTEXT_WEIGHT : ℚ := 0.15

/-- Signal weight `ActivityMatcher.SOURCE_WEIGHT`. -/
def ActivityMatcher.SOURCE_WEIGHT : ℚ := 0.2

/-- `self.path_to_project` built by `_build_lookup_tables`: lowercased
non-empty `folder_path` ↦ project name, in projects-config order. -/
def ActivityMatcher.path_to_project (m : ActivityMatcher) : List (String × String) :=
  m.projects_config.foldl
    (fun d p => if p.folder_path ≠ "" then dict_set d p.folder_path.toLower p.name else d) []

/-- `self.alias_to_project` built by `_build_lookup_tables`. -/
def ActivityMatcher.alias_to_project (m : ActivityMatcher) : List (String × String) :=
  m.projects_config.foldl
    (fun d p => p.aliases.foldl (fun d al => dict_set d al.toLower p.name) d) []

/-- `self.channel_to_project` built by `_build_lookup_tables`
(`channel.lower().strip('#')`). -/
def ActivityMatcher.channel_to_project (m : ActivityMatcher) : List (String × String) :=
  m.projects_config.foldl
    (fun d p => p.slack_channels.foldl
      (fun d ch => dict_set d (stripChar '#' ch.toLower) p.name) d) []

/-- The stopword list of `_build_lookup_tables`. -/
def themeStopwords : List String := ["with", "from", "this", "that", "have"]

/-- `self.keyword_to_themes` built by `_build_lookup_tables`: words of theme
names longer than 4 characters that are not stopwords, each mapping to the
`(project name, theme id)` pairs it occurs in, in roadmap order. -/
def ActivityMatcher.keyword_to_themes (m : ActivityMatcher) :
    List (String × List (String × String)) :=
  m.roadmap.projects.foldl
    (fun d p => p.themes.foldl
      (fun d t => (pySplitWS t.name.toLower).foldl
        (fun d w =>
          if w.length > 4 ∧ ¬ themeStopwords.contains w then dict_append d w (p.name, t.id)
          else d) d) d) []

/-- The `paths_to_check` list assembled by `_match_by_path`: truthy `folder`,
`path`, `cwd` entries of `raw_data`, then `files_edited` and `files_changed`. -/
def paths_to_check (a : Activity) : List String :=
  let opt : String → List String := fun k =>
    match a.raw_data.getStr? k with
    | some s => if s ≠ "" then [s] else []
    | none => []
  opt "folder" ++ opt "path" ++ opt "cwd" ++
    a.raw_data.getStrList "files_edited" ++ a.raw_data.getStrList "files_changed"

/-- `ActivityMatcher._match_by_path`: the first `(path, project)` pair whose
registered lowercase folder path occurs inside the checked path wins, with
confidence `min(0.6 + specificity * 0.4, 1.0)`. -/
def ActivityMatcher.match_by_path (m : ActivityMatcher) (a : Activity) :
    Option (String × ℚ) :=
  (paths_to_check a).findSome? (fun path =>
    let path_lower := if path ≠ "" then path.toLower else ""
    m.path_to_project.findSome? (fun pr =>
      if strIn pr.1 path_lower then
        some (pr.2,
          min (0.6 + ((pr.1.length : ℚ) / ((max path_lower.length 1 : ℕ) : ℚ)) * 0.4) 1)
      else none))

/-- The text `_match_by_keywords` scans: lowercased description plus the
lowercased `task_descriptions` of `raw_data`. -/
def keywordText (a : Activity) : String :=
  (a.raw_data.getStrList "task_descriptions").foldl
    (fun t task => t ++ " " ++ task.toLower) a.description.toLower

/-- The keyword loop of `_match_by_keywords`, threading the
`matched_keywords` set. -/
def keywordPass : List (String × List (String × String)) → String → List String →
    List (String × Option String × ℚ)
  | [], _, _ => []
  | (kw, themes) :: rest, text, seen =>
    if strIn kw text ∧ ¬ seen.contains kw then
      themes.map (fun pt => (pt.1, some pt.2, (0.7 : ℚ))) ++ keywordPass rest text (kw :: seen)
    else keywordPass rest text seen

/-- `ActivityMatcher._match_by_keywords`: theme-keyword matches at 0.7, then
alias substring matches at 0.6. -/
def ActivityMatcher.match_by_keywords (m : ActivityMatcher) (a : Activity) :
    List (String × Option String × ℚ) :=
  let text := keywordText a
  keywordPass m.keyword_to_themes text [] ++
    m.alias_to_project.filterMap
      (fun ap => if strIn ap.1 text then some (ap.2, (none : Option String), (0.6 : ℚ)) else none)

/-- `ActivityMatcher._match_by_source`: Slack channels map through
`channel_to_project` at 0.9; git branches are scanned for aliases at 0.7. -/
def ActivityMatcher.match_by_source (m : ActivityMatcher) (a : Activity) :
    Option (String × ℚ) :=
  match a.source with
  | .slack =>
    (a.raw_data.getStrList "channels").findSome? (fun ch =>
      let clean := stripChar '#' ch.toLower
      match pyLookup m.channel_to_project clean with
      | some pn => some (pn, (0.9 : ℚ))
      | none => none)
  | .git =>
    let branch := a.raw_data.getStr "branch"
    if branch ≠ "" then
      m.alias_to_project.findSome?
        (fun ap => if strIn ap.1 branch.toLower then some (ap.2, (0.7 : ℚ)) else none)
    else none
  | _ => none

/-- One value of the `scores` defaultdict of `match_activity`. -/
structure ScoreData where
  score : ℚ := 0
  signals : List Signal := []
  theme_id : Option String := none
deriving DecidableEq

/-- `scores[project]` access on the defaultdict: update in place, creating a
default entry at the end of the dict when the project is new. -/
def bump (scores : List (String × ScoreData)) (k : String) (f : ScoreData → ScoreData) :
    List (String × ScoreData) :=
  if scores.any (fun p => p.1 = k) then
    scores.map (fun p => if p.1 = k then (p.1, f p.2) else p)
  else scores ++ [(k, f {})]

/-- The `scores` dict accumulated by `ActivityMatcher.match_activity` over its
four signals, in program order: path, keywords, source hint, explicit
`raw_data["project"]`. -/
def ActivityMatcher.match_scores (m : ActivityMatcher) (a : Activity) :
    List (String × ScoreData) :=
  let scores : List (String × ScoreData) := []
  let scores := match m.match_by_path a with
    | some (project, confidence) =>
      bump scores project (fun d =>
        { d with score := d.score + confidence * ActivityMatcher.PATH_WEIGHT,
                 signals := d.signals ++ [.path_match ⌊confidence * 100⌋] })
    | none => scores
  let scores := (m.match_by_keywords a).foldl (fun scores pkc =>
    bump scores pkc.1 (fun d =>
      let d := { d with score := d.score + pkc.2.2 * ActivityMatcher.KEYWORD_WEIGHT,
                        signals := d.signals ++ [.keyword_match] }
      match pkc.2.1 with
      | some tid => if tid ≠ "" then { d with theme_id := some tid } else d
      | none => d)) scores
  let scores := match m.match_by_source a with
    | some (project, confidence) =>
      bump scores project (fun d =>
        { d with score := d.score + confidence * ActivityMatcher.SOURCE_WEIGHT,
                 signals := d.signals ++ [.source_hint a.source] })
    | none => scores
  match a.raw_data.getStr? "project" with
  | some project =>
    if project ≠ "" ∧ project ≠ "Unknown" ∧ project ≠ "Slack" then
      bump scores project (fun d =>
        { d with score := d.score + 0.8 * ActivityMatcher.CONTEXT_WEIGHT,
                 signals := d.signals ++ [.explicit_project] })
    else scores
  | none => scores

/-- `max(scores.keys(), key=lambda p: scores[p]["score"])`: Python `max`
returns the first key attaining the maximum, in dict insertion order, so the
accumulator is replaced only on a strictly greater score. -/
def bestEntry : List (String × ScoreData) → Option (String × ScoreData)
  | [] => none
  | first :: rest =>
    some (rest.foldl (fun acc p => if p.2.score > acc.2.score then p else acc) first)

/-- `ActivityMatcher.match_activity` of matcher.py. -/
def ActivityMatcher.match_activity (m : ActivityMatcher) (a : Activity) : MatchResult :=
  match bestEntry (m.match_scores a) with
  | none => {}
  | some best =>
    { project := some best.1
      theme_id := best.2.theme_id
      confidence := min best.2.score 1
      signals := best.2.signals }

/-! ## _archive/auto_themes.py -/

/-- `COMPLETION_KEYWORDS` of auto_themes.py. -/
def COMPLETION_KEYWORDS : List String :=
  ["ship", "shipped", "launch", "launched", "deploy", "deployed",
   "complete", "completed", "finish", "finished", "done", "released",
   "live", "published", "delivered"]

/-- `BLOCKED_KEYWORDS` of auto_themes.py. -/
def BLOCKED_KEYWORDS : List String :=
  ["blocked", "waiting", "stuck", "paused", "on hold", "pending review"]

/-- The text scanned by `check_completion_signals`/`check_blocked_signals`:
the lowercased description extended with the lowercased `task_descriptions`
(the same construction as the matcher's keyword text). -/
def signalText (a : Activity) : String :=
  (a.raw_data.getStrList "task_descriptions").foldl
    (fun t task => t ++ " " ++ task.toLower) a.description.toLower

/-- `check_completion_signals` of auto_themes.py (the boolean component; the
code also reports which keyword fired, which the status update only logs). -/
def check_completion_signals (acts : List Activity) : Bool :=
  acts.any (fun a => COMPLETION_KEYWORDS.any (fun k => strIn k (signalText a)))

/-- `check_blocked_signals` of auto_themes.py. -/
def check_blocked_signals (acts : List Activity) : Bool :=
  acts.any (fun a => BLOCKED_KEYWORDS.any (fun k => strIn k (signalText a)))

/-- The `by_theme.get(theme.id, [])` grouping of `update_theme_statuses`:
activities whose truthy `raw_data["theme_id"]` equals the given id, in input
order. -/
def theme_activities (activities : List Activity) (tid : String) : List Activity :=
  activities.filter (fun a =>
    match a.raw_data.getStr? "theme_id" with
    | some t => t ≠ "" ∧ t = tid
    | none => false)

/-- One record of the `changes` list returned by `update_theme_statuses`
(the human-readable `reason` string is omitted). -/
structure StatusChange where
  theme_id : String
  theme_name : String
  project : String
  old_status : ThemeStatus
  new_status : ThemeStatus

/-- The per-theme body of the `update_theme_statuses` loop: the transition
rules for planned/active/blocked themes.  A `complete` theme has no branch in
the code and is returned untouched. -/
def step_theme (activities : List Activity) (now : DateTime) (pname : String)
    (t : Theme) : Theme × Option StatusChange :=
  let tacts := theme_activities activities t.id
  match t.status with
  | .planned =>
    if !tacts.isEmpty then
      ({ t with status := .active, last_touched := some now },
       some { theme_id := t.id, theme_name := t.name, project := pname,
              old_status := t.status, new_status := .active })
    else (t, none)
  | .active =>
    if check_completion_signals tacts then
      ({ t with status := .complete, last_touched := some now },
       some { theme_id := t.id, theme_name := t.name, project := pname,
              old_status := t.status, new_status := .complete })
    else if check_blocked_signals tacts then
      ({ t with status := .blocked, last_touched := some now },
       some { theme_id := t.id, theme_name := t.name, project := pname,
              old_status := t.status, new_status := .blocked })
    else if !tacts.isEmpty then ({ t with last_touched := some now }, none)
    else (t, none)
  | .blocked =>
    if !tacts.isEmpty then
      ({ t with status := .active, last_touched := some now },
       some { theme_id := t.id, theme_name := t.name, project := pname,
              old_status := t.status, new_status := .active })
    else (t, none)
  | .complete => (t, none)

/-- `update_theme_statuses` of auto_themes.py: every theme of every project
is stepped in place; the collected change records are returned alongside. -/
def update_theme_statuses (activities : List Activity) (now : DateTime)
    (rm : Roadmap) : Roadmap × List StatusChange :=
  ({ rm with projects := rm.projects.map (fun p =>
      { p with themes := p.themes.map (fun t => (step_theme activities now p.name t).1) }) },
   (rm.projects.map (fun p =>
      (p.themes.map (step_theme activities now p.name)).filterMap Prod.snd)).flatten)

/-! ## cli/review.py -/

/-- The Python exceptions relevant to the embedded code. -/
inductive PyErr where
  | fileNotFound
  | valueError
deriving DecidableEq

/-- Mark the first change with the given id as approved/rejected
(`change.approved = True` / `= False` on the object found by the scan). -/
def set_approved_first : List ProposedChange → String → Bool → List ProposedChange
  | [], _, _ => []
  | c :: rest, cid, v =>
    if c.id = cid then { c with approved := some v } :: rest
    else c :: set_approved_first rest cid v

/-- Set the status and `last_touched` of the first theme with the given id in
a theme list (`none` when absent). -/
def set_first_theme (tid : String) (st : ThemeStatus) (now : DateTime) :
    List Theme → Option (List Theme)
  | [] => none
  | t :: rest =>
    if t.id = tid then some ({ t with status := st, last_touched := some now } :: rest)
    else (set_first_theme tid st now rest).map (t :: ·)

/-- The project/theme double loop of `apply_change`: update the first theme
with the given id across the project list. -/
def set_first_theme_in_projects (tid : String) (st : ThemeStatus) (now : DateTime) :
    List Project → Option (List Project)
  | [] => none
  | p :: rest =>
    match set_first_theme tid st now p.themes with
    | some ts => some ({ p with themes := ts } :: rest)
    | none => (set_first_theme_in_projects tid st now rest).map (p :: ·)

/-- `ThemeStatus(new_status)` on the raw JSON detail value: only a valid
status string succeeds, anything else raises `ValueError`. -/
def parse_theme_status : Option Json → Option ThemeStatus
  | some (.str s) => ThemeStatus.ofValue? s
  | _ => none

/-- `apply_change` of review.py: find the change by id (first match,
regardless of its current `approved` state), apply its mutation, and mark it
approved.  A `status_change` whose theme is not found, or an unknown change
type, returns `False` without touching `approved`; an invalid `new_status`
raises `ValueError`. -/
def apply_change (now : DateTime) (rm : Roadmap) (cid : String) :
    Except PyErr (Roadmap × Bool) :=
  match rm.pending_changes.find? (fun c => c.id = cid) with
  | none => .ok (rm, false)
  | some c =>
    if c.change_type = "status_change" then
      match c.details.getStr? "theme_id" with
      | none => .ok (rm, false)
      | some tid =>
        if rm.projects.any (fun p => p.themes.any (fun t => t.id = tid)) then
          match parse_theme_status (c.details.get? "new_status") with
          | none => .error .valueError
          | some st =>
            match set_first_theme_in_projects tid st now rm.projects with
            | some ps =>
              .ok ({ rm with
                      projects := ps
                      pending_changes := set_approved_first rm.pending_changes cid true },
                   true)
            | none => .ok (rm, false)
        else .ok (rm, false)
    else if c.change_type = "stale_warning" then
      .ok ({ rm with pending_changes := set_approved_first rm.pending_changes cid true }, true)
    else if c.change_type = "new_theme_suggestion" then
      .ok ({ rm with pending_changes := set_approved_first rm.pending_changes cid true }, true)
    else .ok (rm, false)

/-- `reject_change` of review.py: mark the first change with the id rejected,
regardless of its current `approved` state. -/
def reject_change (rm : Roadmap) (cid : String) : Roadmap × Bool :=
  if rm.pending_changes.any (fun c => c.id = cid) then
    ({ rm with pending_changes := set_approved_first rm.pending_changes cid false }, true)
  else (rm, false)

/-- `cmd_approve` with argument `all`: the pending ids are computed first from
the loaded roadmap, then `apply_change` runs on each in turn (an exception
would propagate). -/
def cmd_approve_all (now : DateTime) (rm : Roadmap) : Except PyErr Roadmap :=
  let pending_ids := (rm.pending_changes.filter (fun c => c.approved = none)).map (·.id)
  pending_ids.foldlM (fun r cid => (apply_change now r cid).map Prod.fst) rm

/-- `cmd_reject` with argument `all`. -/
def cmd_reject_all (rm : Roadmap) : Roadmap :=
  let pending_ids := (rm.pending_changes.filter (fun c => c.approved = none)).map (·.id)
  pending_ids.foldl (fun r cid => (reject_change r cid).1) rm

/-! ## save_activities merges (collectors/claude.py and collectors/filesystem.py) -/

/-- The de-duplication key of `save_activities` in collectors/claude.py:
`(description, source.value, timestamp.isoformat()[:16])`, the third
component being minute truncation. -/
def dedup_key_claude (a : Activity) : String × String × Int :=
  (a.description, a.source.value, minute_trunc a.timestamp)

/-- The merge loop of `save_activities` in collectors/claude.py: the key set
is computed from the existing log once and never extended, so only
new-against-existing duplicates are dropped. -/
def save_merge_claude (existing new : List Activity) : List Activity :=
  let existing_keys := existing.map dedup_key_claude
  new.foldl (fun acc a =>
    if dedup_key_claude a ∈ existing_keys then acc else acc ++ [a]) existing

/-- The de-duplication key of `save_activities` in collectors/filesystem.py:
`(description, timestamp.isoformat())` — full timestamp, no source. -/
def dedup_key_fs (a : Activity) : String × Int :=
  (a.description, a.timestamp)

/-- The merge loop of `save_activities` in collectors/filesystem.py: `seen`
is extended with every appended activity, so duplicates inside the new batch
are also dropped. -/
def fs_merge_loop : List Activity → List (String × Int) → List Activity → List Activity
  | [], _, acc => acc
  | a :: rest, seen, acc =>
    if dedup_key_fs a ∈ seen then fs_merge_loop rest seen acc
    else fs_merge_loop rest (dedup_key_fs a :: seen) (acc ++ [a])

/-- `save_activities` merge of collectors/filesystem.py. -/
def save_merge_fs (existing new : List Activity) : List Activity :=
  fs_merge_loop new (existing.map dedup_key_fs) existing

/-- Occurrences of a claude-style dedup key in an activity list. -/
def countKeyC (l : List Activity) (k : String × String × Int) : ℕ :=
  List.countP (fun a => dedup_key_claude a = k) l

/-- Occurrences of a filesystem-style dedup key in an activity list. -/
def countKeyF (l : List Activity) (k : String × Int) : ℕ :=
  List.countP (fun a => dedup_key_fs a = k) l

/-! ## collectors/git.py and agent/simple_recap.py (config handling) -/

/-- One parsed commit of `get_commits`, with the `files_changed` that
`get_changed_files` fetches for it (both subprocess results are inputs of the
embedding). -/
structure Commit where
  hash : String
  author_name : String
  author_email : String
  date : DateTime
  subject : String
  files_changed : List String := []

/-- One repository found by `find_git_repos`, with its commits in the window
(an empty list also models a failed/timed-out `git log`). -/
structure RepoData where
  repo_path : String
  commits : List Commit := []

/-- `load_config` of collectors/git.py (identical in filesystem.py and
claude.py): both `settings.json` and `projects.json` are opened without any
guard, so a missing file raises `FileNotFoundError`.  `none` models a missing
file, `some` its parsed content. -/
def load_config (settings? : Option Json) (projects? : Option Json) :
    Except PyErr (Json × Json) :=
  match settings? with
  | none => .error .fileNotFound
  | some s =>
    match projects? with
    | none => .error .fileNotFound
    | some p => .ok (s, p)

/-- `os.path.basename` for the slash-separated paths used here. -/
def basename (s : String) : String :=
  ((s.splitOn "/").getLast?).getD ""

/-- `find_project_for_path` of git.py: the first configured project whose
folder path is a prefix of the path (paths assumed absolute/normalized, as
`os.path.abspath` produces). -/
def find_project_for_path (path : String) (projects : List ProjectCfg) :
    Option ProjectCfg :=
  projects.find? (fun p => p.folder_path.isPrefixOf path)

/-- The Activity built for one commit by `collect_activities` of git.py. -/
def git_activity (project_name : String) (repo_path : String) (c : Commit) : Activity :=
  { source := .git
    timestamp := c.date
    description := "[" ++ project_name ++ "] " ++ c.subject
    confidence := 0.95
    raw_data := .obj [
      ("hash", .str c.hash),
      ("author", .str c.author_name),
      ("email", .str c.author_email),
      ("subject", .str c.subject),
      ("files_changed", .arr (c.files_changed.map .str)),
      ("repo_path", .str repo_path),
      ("project", .str project_name)]
    project_path := some repo_path }

/-- The `projects` list parsed out of projects.json, as `collect_activities`
reads it (`projects_config.get("projects", [])`). -/
structure ProjectsConfig where
  excluded_folders : List String := []
  projects : List ProjectCfg := []

/-- `collect_activities` of collectors/git.py: `load_config()` runs first and
its exceptions propagate (there is no handler), then each repository's
commits become activities, sorted by timestamp descending (stable, as
`list.sort` is). -/
def collect_activities_git (settings? : Option Json) (projects? : Option Json)
    (pc : ProjectsConfig) (repos : List RepoData) : Except PyErr (List Activity) := do
  let _ ← load_config settings? projects?
  let acts := repos.foldl (fun acts r =>
    if r.commits.isEmpty then acts
    else
      let project := find_project_for_path r.repo_path pc.projects
      let project_name := match project with
        | some p => p.name
        | none => basename r.repo_path
      acts ++ r.commits.map (git_activity project_name r.repo_path)) []
  .ok (acts.mergeSort (fun a b => b.timestamp ≤ a.timestamp))

/-- `load_overrides` of agent/simple_recap.py: a missing overrides.json is
replaced by the empty default config (the module-level cache is a pure
memoization and is not modelled). -/
def load_overrides (file? : Option Json) : Json :=
  match file? with
  | some j => j
  | none => .obj [("names", .obj []), ("teams", .obj []), ("exclude", .arr [])]

/-- `collect_all` of agent/simple_recap.py: each collector runs under
`try/except Exception: pass`, so a failing collector contributes nothing. -/
def collect_all_simple (git_result fs_result : Except PyErr (List Activity)) :
    List Activity :=
  (match git_result with | .ok l => l | .error _ => []) ++
    (match fs_result with | .ok l => l | .error _ => [])

/-! ## agent/nightly.py and _archive/nightly.py (aggregator / recap) -/

/-- The `summary` sub-dict of a categorized batch.  `avg_confidence` is set
by the archived matcher pipeline and read back by
`summary.get('avg_confidence', 0)`; the agent pipeline leaves it 0. -/
structure Summary where
  total_activities : ℕ := 0
  projects_touched : List String := []
  sources : List (String × ℕ) := []
  avg_confidence : ℚ := 0

/-- The categorized-batch dict produced by `categorize_activities` (agent) or
`categorize_batch` (archive) and consumed by the formatters and the
distribution calculation. -/
structure Categorized where
  by_project : List (String × List Activity) := []
  by_theme : List (String × List Activity) := []
  uncategorized : List Activity := []
  summary : Summary := {}

/-- The claude-session summary dict of `get_session_summary`, as read by the
formatters. -/
structure ClaudeSummary where
  total_sessions : ℕ := 0
  total_messages : ℕ := 0
  total_files_edited : ℕ := 0
  tools_breakdown : List (String × ℕ) := []

/-- One daily-win record, as read by the archived formatter. -/
structure Win where
  category : String := "Development"
  summary : String := ""
  project : String := "Unknown"
  confidence : ℚ := 0

/-- One `lines.append(...)` of the two `format_recap` functions, abstracted
to the data each formatted string interpolates.  The archived formatter is
the only one with the warning constructors. -/
inductive RecapLine where
  | sep
  | header (now : DateTime)
  | total_activities (n : ℕ)
  | projects_touched (ps : List String)
  | sources (l : List (String × ℕ))
  | low_conf_warning (pct : ℤ)
  | low_conf_advice
  | high_uncat_warning (pct : ℤ)
  | high_uncat_advice
  | wins_header
  | win_line (category summary : String)
  | win_project (project : String) (confpct : ℤ)
  | claude_header
  | claude_sessions (n : ℕ)
  | claude_messages (n : ℕ)
  | claude_files (n : ℕ)
  | claude_top_tools (l : List (String × ℕ))
  | team_dist_header
  | team_line (team : String) (pct : ℤ) (count : ℕ)
  | theme_section_header
  | project_header (name team : String)
  | theme_line (status : ThemeStatus) (name : String) (count : ℕ)
  | uncat_header (n : ℕ)
  | uncat_item (desc : String)
  | uncat_more (n : ℕ)
  | changes_header
  | change_line (i : ℕ) (change_type description : String)
  | change_sample (s : String)
deriving DecidableEq

/-- `sorted(items, key=lambda x: -x[1])[:5]`: stable sort by count
descending, first five. -/
def top5ByCount (l : List (String × ℕ)) : List (String × ℕ) :=
  (l.mergeSort (fun a b => b.2 ≤ a.2)).take 5

/-- The header and summary lines shared by both formatters. -/
def recap_summary_lines (now : DateTime) (c : Categorized) : List RecapLine :=
  [.sep, .header now, .sep,
   .total_activities c.summary.total_activities,
   .projects_touched c.summary.projects_touched,
   .sources c.summary.sources]

/-- The claude-code section shared by both formatters
(`if claude_summary and claude_summary.get('total_sessions', 0) > 0`). -/
def recap_claude_lines (cs? : Option ClaudeSummary) : List RecapLine :=
  match cs? with
  | none => []
  | some cs =>
    if cs.total_sessions > 0 then
      [.claude_header, .claude_sessions cs.total_sessions,
       .claude_messages cs.total_messages, .claude_files cs.total_files_edited] ++
      (if !cs.tools_breakdown.isEmpty then [.claude_top_tools (top5ByCount cs.tools_breakdown)]
       else [])
    else []

/-- The team-distribution section shared by both formatters (`if
distribution:`). -/
def recap_dist_lines (dist : List (String × ℕ × ℤ)) : List RecapLine :=
  if !dist.isEmpty then
    .team_dist_header :: dist.map (fun d => .team_line d.1 d.2.2 d.2.1)
  else []

/-- The per-project activity-by-theme section shared by both formatters. -/
def recap_theme_lines (c : Categorized) (rm : Roadmap) : List RecapLine :=
  .theme_section_header ::
    (rm.projects.map (fun p =>
      if ((pyLookup c.by_project p.name).getD []).isEmpty then []
      else
        RecapLine.project_header p.name p.team ::
          p.themes.filterMap (fun t =>
            if !((pyLookup c.by_theme t.id).getD []).isEmpty then
              some (.theme_line t.status t.name ((pyLookup c.by_theme t.id).getD []).length)
            else none))).flatten

/-- The uncategorized section shared by both formatters. -/
def recap_uncat_lines (c : Categorized) : List RecapLine :=
  if !c.uncategorized.isEmpty then
    .uncat_header c.uncategorized.length ::
      (c.uncategorized.take 5).map (fun a => .uncat_item (a.description.take 60)) ++
      (if c.uncategorized.length > 5 then [.uncat_more (c.uncategorized.length - 5)] else [])
  else []

/-- The proposed-changes section shared by both formatters. -/
def recap_change_lines (changes : List ProposedChange) : List RecapLine :=
  if !changes.isEmpty then
    .changes_header ::
      (changes.enum.map (fun ic =>
        RecapLine.change_line (ic.1 + 1) ic.2.change_type ic.2.description ::
          (if ic.2.change_type = "new_theme_suggestion" then
            ((ic.2.details.getStrList "sample_descriptions").take 2).map
              (fun s => .change_sample (s.take 50))
          else []))).flatten
  else []

/-- `format_recap` of agent/nightly.py: header, summary, claude section, team
distribution, activity by theme, uncategorized listing, proposed changes.
There is no confidence or uncategorized-rate warning in this formatter. -/
def format_recap_agent (now : DateTime) (c : Categorized)
    (changes : List ProposedChange) (rm : Roadmap) (dist : List (String × ℕ × ℤ))
    (cs? : Option ClaudeSummary) : List RecapLine :=
  recap_summary_lines now c ++
  recap_claude_lines cs? ++
  recap_dist_lines dist ++
  recap_theme_lines c rm ++
  recap_uncat_lines c ++
  recap_change_lines changes ++
  [.sep]

/-- The two warning blocks of the archived `format_recap`: low average
confidence, and the high-uncategorized warning shown when
`total > 0 and uncategorized_count / total > 0.25`. -/
def recap_warning_lines (c : Categorized) : List RecapLine :=
  (if 0 < c.summary.avg_confidence ∧ c.summary.avg_confidence < 0.6 then
    [.low_conf_warning ⌊c.summary.avg_confidence * 100⌋, .low_conf_advice]
  else []) ++
  (if 0 < c.summary.total_activities ∧
      (c.uncategorized.length : ℚ) / (c.summary.total_activities : ℚ) > 0.25 then
    [.high_uncat_warning
        ⌊(c.uncategorized.length : ℚ) / (c.summary.total_activities : ℚ) * 100⌋,
     .high_uncat_advice]
  else [])

/-- The daily-wins section of the archived `format_recap`. -/
def recap_wins_lines (wins : List Win) : List RecapLine :=
  if !wins.isEmpty then
    .wins_header ::
      ((wins.take 5).map (fun w =>
        [RecapLine.win_line w.category (w.summary.take 80),
         RecapLine.win_project w.project ⌊w.confidence * 100⌋])).flatten
  else []

/-- `format_recap` of _archive/nightly.py: like the agent formatter but with
the warning blocks and the daily-wins section after the summary. -/
def format_recap_archive (now : DateTime) (c : Categorized)
    (changes : List ProposedChange) (rm : Roadmap) (dist : List (String × ℕ × ℤ))
    (cs? : Option ClaudeSummary) (wins : List Win) : List RecapLine :=
  recap_summary_lines now c ++
  recap_warning_lines c ++
  recap_wins_lines wins ++
  recap_claude_lines cs? ++
  recap_dist_lines dist ++
  recap_theme_lines c rm ++
  recap_uncat_lines c ++
  recap_change_lines changes ++
  [.sep]

/-- The distinct high-uncategorized flag: the line the archived formatter
emits as `HIGH UNCATEGORIZED: ..% of activities couldn't be matched`.  No
other line of either formatter carries this flag. -/
def isHighUncatWarning : RecapLine → Bool
  | .high_uncat_warning _ => true
  | _ => false

/-- `defaultdict(int)` accumulation `d[k] += n`. -/
def dict_add (d : List (String × ℕ)) (k : String) (n : ℕ) : List (String × ℕ) :=
  if d.any (fun p => p.1 = k) then d.map (fun p => if p.1 = k then (p.1, p.2 + n) else p)
  else d ++ [(k, n)]

/-- The `team_activities` dict of `calculate_team_distribution`
(agent/nightly.py): per configured project, the length of its categorized
activity list is added to its team's count. -/
def nightly_team_counts (c : Categorized) (rm : Roadmap) : List (String × ℕ) :=
  rm.projects.foldl (fun d p =>
    dict_add d p.team ((pyLookup c.by_project p.name).getD []).length) []

/-- `total = sum(team_activities.values())` in agent/nightly.py. -/
def nightly_team_total (c : Categorized) (rm : Roadmap) : ℕ :=
  ((nightly_team_counts c rm).map (fun tc => tc.2)).sum

/-- `calculate_team_distribution` of agent/nightly.py: empty dict when the
total is zero, otherwise count and `round(count / total * 100)` per team. -/
def calculate_team_distribution (c : Categorized) (rm : Roadmap) :
    List (String × ℕ × ℤ) :=
  let team_activities := nightly_team_counts c rm
  let total := nightly_team_total c rm
  if total = 0 then []
  else team_activities.map (fun tc =>
    (tc.1, tc.2, pyRound ((tc.2 : ℚ) / (total : ℚ) * 100)))

/-- The `team_counts` dict of `calculate_team_distribution`
(agent/simple_recap.py): `by_project` carries each project's `count` field,
and teams come from `get_project_team` (override lookup), passed in as a
function. -/
def simple_team_counts (get_team : String → String) (bp : List (String × ℕ)) :
    List (String × ℕ) :=
  bp.foldl (fun d pr => dict_add d (get_team pr.1) pr.2) []

/-- `total = sum(team_counts.values())` in agent/simple_recap.py (before the
`or 1` guard). -/
def simple_team_total (get_team : String → String) (bp : List (String × ℕ)) : ℕ :=
  ((simple_team_counts get_team bp).map (fun tc => tc.2)).sum

/-- `calculate_team_distribution` of agent/simple_recap.py: the denominator
is `sum(...) or 1`, so a zero total divides by 1 instead of failing. -/
def calculate_team_distribution_simple (get_team : String → String)
    (bp : List (String × ℕ)) : List (String × ℤ) :=
  let team_counts := simple_team_counts get_team bp
  let total := simple_team_total get_team bp
  let denom : ℕ := if total = 0 then 1 else total
  team_counts.map (fun tc => (tc.1, pyRound ((tc.2 : ℚ) / (denom : ℚ) * 100)))

/-! ## Concrete fixtures used by the claim theorems -/

/-- The registry of the spec's classifier example: one project `Billing`
rooted at `/repo/billing`, against an empty roadmap. -/
def cfgBilling : ActivityMatcher :=
  { roadmap := {},
    projects_config := [{ name := "Billing", folder_path := "/repo/billing" }] }

/-- The activity of the spec's example, carrying the path under the key
`project_path` inside `raw_data`, as the spec sentence literally says. -/
def actProjectPath : Activity :=
  { source := .filesystem, timestamp := 0, description := "edited some code",
    raw_data := .obj [("project_path", .str "/repo/billing/src/x.py")] }

/-- The same activity with the path under the key `path`, one of the five
`raw_data` keys `_match_by_path` actually reads. -/
def actPathField : Activity :=
  { source := .filesystem, timestamp := 0, description := "edited some code",
    raw_data := .obj [("path", .str "/repo/billing/src/x.py")] }

/-- A registry with a single project `A`, used for the explicit-hint claim. -/
def cfgHint : ActivityMatcher :=
  { roadmap := {}, projects_config := [{ name := "A", folder_path := "/aaa" }] }

/-- An activity whose only signal is the explicit `raw_data["project"] = "A"`
hint: no path fields, no keyword or alias occurrence, no source hint. -/
def actHint : Activity :=
  { source := .manual, timestamp := 0, description := "x",
    raw_data := .obj [("project", .str "A")] }

/-- Registry with projects `Alpha` (alias `foo`) then `Beta` (alias `bar`). -/
def cfgTieAB : ActivityMatcher :=
  { roadmap := {},
    projects_config :=
      [{ name := "Alpha", folder_path := "/alpha", aliases := ["foo"] },
       { name := "Beta", folder_path := "/beta", aliases := ["bar"] }] }

/-- The same two projects registered in the opposite order. -/
def cfgTieBA : ActivityMatcher :=
  { roadmap := {},
    projects_config :=
      [{ name := "Beta", folder_path := "/beta", aliases := ["bar"] },
       { name := "Alpha", folder_path := "/alpha", aliases := ["foo"] }] }

/-- An activity whose description mentions both aliases, so both projects
accumulate the identical alias-keyword score 0.6 * KEYWORD_WEIGHT. -/
def actTie : Activity :=
  { source := .manual, timestamp := 0, description := "foo bar work",
    raw_data := .obj [] }

/-- A roadmap with one project holding one completed theme. -/
def rmComplete : Roadmap :=
  { projects := [{ id := "p"
                   name := "P"
                   team := "T"
                   folder_path := "/p"
                   themes := [{ id := "t1", name := "Theme One", status := .complete }] }] }

/-- An activity attributed to theme `t1` whose text carries a completion
keyword — the strongest keyword signal the status rules react to. -/
def actShipped : Activity :=
  { source := .git, timestamp := 0, description := "shipped the thing",
    raw_data := .obj [("theme_id", .str "t1")] }

/-- A proposed change that has already been rejected. -/
def cStale : ProposedChange :=
  { id := "c1", change_type := "stale_warning", description := "stale theme",
    details := .obj [], created_at := 0, approved := some false }

/-- A roadmap whose only pending-changes entry is already decided. -/
def rmDecided : Roadmap := { pending_changes := [cStale] }

/-- A still-pending change. -/
def cPending : ProposedChange :=
  { id := "p1", change_type := "stale_warning", description := "pending",
    details := .obj [], created_at := 0, approved := none }

/-- A roadmap holding one pending and one decided change. -/
def rmMixed : Roadmap := { pending_changes := [cPending, cStale] }

/-- Two activities with the same description and source whose timestamps lie
in the same minute (second 30 and second 59.999999) but differ exactly. -/
def actDup : Activity :=
  { source := .claude, timestamp := 30000000, description := "dup",
    raw_data := .obj [] }

/-- See `actDup`: the same claude dedup key, a different exact timestamp. -/
def actDup2 : Activity :=
  { source := .claude, timestamp := 59999999, description := "dup",
    raw_data := .obj [] }

/-- Simple uncategorized activities for the recap fixtures. -/
def actU1 : Activity :=
  { source := .manual, timestamp := 0, description := "mystery work one" }

/-- Second uncategorized activity for the recap fixtures. -/
def actU2 : Activity :=
  { source := .manual, timestamp := 0, description := "mystery work two" }

/-- A categorized batch of four activities, two of them uncategorized: an
uncategorized rate of 50%, above the 25% threshold. -/
def catHigh : Categorized :=
  { uncategorized := [actU1, actU2],
    summary := { total_activities := 4, avg_confidence := 1 } }

/-! ## Theorems -/

/-- Round-trip of a serializer pair through a list, used for the nested
`List` fields of the models. -/
theorem list_roundtrip_loop {α : Type} (g : α → Json) (f : Json → Option α)
    (h : ∀ x, f (g x) = some x) :
    ∀ (l : List α) (acc : List α),
      List.mapM.loop f (l.map g) acc = some (acc.reverse ++ l) := by
  intro l
  induction l with
  | nil => intro acc; simp [List.mapM.loop]
  | cons x xs ih =>
    intro acc
    simp only [List.map_cons, List.mapM.loop, h, Option.bind_some, ih,
      List.reverse_cons, List.append_assoc, List.singleton_append]
    rfl

theorem list_roundtrip {α : Type} (g : α → Json) (f : Json → Option α)
    (h : ∀ x, f (g x) = some x) : ∀ l : List α, (l.map g).mapM f = some l := by
  intro l
  simpa using list_roundtrip_loop g f h l []

/-- Round-trip for `Activity`. -/
theorem activity_roundtrip (a : Activity) :
    Activity.from_dict (Activity.to_dict a) = some a := by
  obtain ⟨src, ts, d, c, rd, pp⟩ := a
  cases src <;> cases pp <;> rfl

/-- Round-trip for `Task`. -/
theorem task_roundtrip (t : Task) :
    Task.from_dict (Task.to_dict t) = some t := by
  obtain ⟨id, d, st, lt, arts, acts⟩ := t
  cases st <;> cases lt <;>
    simp [Task.to_dict, Task.from_dict, Json.get?, lookupField, getOptTime,
      getStrListD, getObjList, Json.truthy, optTimeJson, TaskStatus.value,
      TaskStatus.ofValue?,
      list_roundtrip_loop Activity.to_dict Activity.from_dict activity_roundtrip,
      list_roundtrip_loop Json.str (fun | .str s => some s | _ => none) (fun _ => rfl)]

/-- Round-trip for `Theme`. -/
theorem theme_roundtrip (t : Theme) :
    Theme.from_dict (Theme.to_dict t) = some t := by
  obtain ⟨id, n, st, notes, tasks, lt⟩ := t
  cases st <;> cases lt <;>
    simp [Theme.to_dict, Theme.from_dict, Json.get?, lookupField, getOptTime,
      getObjList, Json.truthy, optTimeJson, ThemeStatus.value, ThemeStatus.ofValue?,
      list_roundtrip_loop Task.to_dict Task.from_dict task_roundtrip]

/-- Round-trip for `Project`. -/
theorem project_roundtrip (p : Project) :
    Project.from_dict (Project.to_dict p) = some p := by
  obtain ⟨id, n, team, fp, priv, themes⟩ := p
  cases priv <;>
    simp [Project.to_dict, Project.from_dict, Json.get?, lookupField,
      getObjList, Privacy.value, Privacy.ofValue?,
      list_roundtrip_loop Theme.to_dict Theme.from_dict theme_roundtrip]

/-- Round-trip for `ProposedChange`. -/
theorem proposed_change_roundtrip (now : DateTime) (c : ProposedChange) :
    ProposedChange.from_dict now (ProposedChange.to_dict c) = some c := by
  obtain ⟨id, ct, d, det, ca, ap⟩ := c
  cases ap <;> rfl

/-- C1: the claim says that, with a registry containing the project `Billing`
rooted at `/repo/billing`, an activity whose `raw_data.project_path` is
`/repo/billing/src/x.py` is classified as `Billing` with confidence ≥ 0.6.
It is false: `_match_by_path` never reads the `project_path` key (it reads
`folder`, `path`, `cwd`, `files_edited`, `files_changed`), so no signal fires
and the classifier returns the empty `MatchResult` with no project and
confidence 0. -/
theorem C1_counterexample :
    (cfgBilling.match_activity actProjectPath).project ≠ some "Billing" ∧
    ¬ ((cfgBilling.match_activity actProjectPath).confidence ≥ 0.6) ∧
    cfgBilling.match_activity actProjectPath = {} := by
  refine ⟨by with_unfolding_all decide, by with_unfolding_all decide, by with_unfolding_all decide⟩

/-- C1 amended: with the path carried under the `path` key of `raw_data` (one
of the keys the matcher reads), classification does yield `Billing`, the path
signal's own confidence 46/55 ≈ 0.836 is ≥ 0.6, but the returned overall
confidence is that value times `PATH_WEIGHT` (0.4), namely 92/275 ≈ 0.335,
which is below 0.6. -/
theorem C1_amended_path_key :
    cfgBilling.match_by_path actPathField = some ("Billing", 46/55) ∧
    (46/55 : ℚ) ≥ 0.6 ∧
    cfgBilling.match_activity actPathField =
      { project := some "Billing", theme_id := none,
        confidence := (46/55) * ActivityMatcher.PATH_WEIGHT,
        signals := [.path_match 83] } ∧
    ¬ ((46/55 : ℚ) * ActivityMatcher.PATH_WEIGHT ≥ 0.6) := by
  refine ⟨by with_unfolding_all decide, by norm_num, by with_unfolding_all decide,
    by norm_num [ActivityMatcher.PATH_WEIGHT]⟩

/-- C2: the claim says an activity whose raw-data project hint names a known
project is classified as that project with confidence at least the
explicit-hint weight (`CONTEXT_WEIGHT` = 0.15).  It is false: the hint
contributes `0.8 * CONTEXT_WEIGHT` = 0.12, so even when the hint is the only
firing signal the returned confidence 0.12 is strictly below 0.15. -/
theorem C2_counterexample :
    "A" ∈ cfgHint.projects_config.map ProjectCfg.name ∧
    actHint.raw_data.getStr? "project" = some "A" ∧
    (cfgHint.match_activity actHint).project = some "A" ∧
    (cfgHint.match_activity actHint).confidence < ActivityMatcher.CONTEXT_WEIGHT := by
  refine ⟨by decide, by decide, by with_unfolding_all decide, by with_unfolding_all decide⟩

/-- C2 amended: when the explicit raw-data hint is the only firing signal
(no path, keyword, or source match), the classifier returns the hinted
project, and the confidence is exactly `0.8 * CONTEXT_WEIGHT` = 0.12 — not
`≥ CONTEXT_WEIGHT`; when other signals fire they can also outscore the hint
and change the winner. -/
theorem C2_amended_explicit_hint (m : ActivityMatcher) (a : Activity) (p : String)
    (hpath : m.match_by_path a = none)
    (hkw : m.match_by_keywords a = [])
    (hsrc : m.match_by_source a = none)
    (hp : a.raw_data.getStr? "project" = some p)
    (h1 : p ≠ "") (h2 : p ≠ "Unknown") (h3 : p ≠ "Slack") :
    m.match_activity a =
      { project := some p, theme_id := none,
        confidence := 0.8 * ActivityMatcher.CONTEXT_WEIGHT,
        signals := [.explicit_project] } := by
  have hmin : min (0 + 0.8 * ActivityMatcher.CONTEXT_WEIGHT) (1 : ℚ) =
      0.8 * ActivityMatcher.CONTEXT_WEIGHT := by
    norm_num [ActivityMatcher.CONTEXT_WEIGHT]
  simp [ActivityMatcher.match_activity, ActivityMatcher.match_scores, hpath, hkw, hsrc,
    hp, h1, h2, h3, bump, bestEntry, hmin]
  norm_num [ActivityMatcher.CONTEXT_WEIGHT]

/-- Witness for the amended C2 theorem at the concrete one-signal input. -/
theorem C2_amended_explicit_hint_witness :
    cfgHint.match_activity actHint =
      { project := some "A", theme_id := none,
        confidence := 0.8 * ActivityMatcher.CONTEXT_WEIGHT,
        signals := [.explicit_project] } :=
  C2_amended_explicit_hint cfgHint actHint "A"
    (by with_unfolding_all decide) (by with_unfolding_all decide) (by with_unfolding_all decide)
    (by decide) (by decide) (by decide) (by decide)

/-- C3: the claim says exact ties are broken by signal priority order and
explicitly "not by candidate insertion order".  It is false: with two
projects whose aliases both occur in the description, both accumulate the
identical score 0.15; the score dicts of the two registry orders are
permutations of each other, yet the winner is whichever project was inserted
first — the selection depends on candidate insertion order. -/
theorem C3_counterexample :
    (cfgTieAB.match_scores actTie).Perm (cfgTieBA.match_scores actTie) ∧
    (∀ e ∈ cfgTieAB.match_scores actTie, e.2.score = 3/20) ∧
    (cfgTieAB.match_activity actTie).project = some "Alpha" ∧
    (cfgTieBA.match_activity actTie).project = some "Beta" := by
  refine ⟨by with_unfolding_all decide, by with_unfolding_all decide,
    by with_unfolding_all decide, by with_unfolding_all decide⟩

theorem foldBest_score_le (f : String × ScoreData) (l : List (String × ScoreData)) :
    f.2.score ≤
      (l.foldl (fun acc p => if p.2.score > acc.2.score then p else acc) f).2.score := by
  induction l generalizing f with
  | nil => simp
  | cons y ys ih =>
    simp only [List.foldl_cons]
    by_cases hy : y.2.score > f.2.score
    · rw [if_pos hy]; exact le_trans (le_of_lt hy) (ih y)
    · rw [if_neg hy]; exact ih f

theorem foldBest_first_max (rest : List (String × ScoreData)) (first : String × ScoreData) :
    ∃ l1 l2,
      first :: rest = l1 ++
        (rest.foldl (fun acc p => if p.2.score > acc.2.score then p else acc) first) :: l2 ∧
      (∀ x ∈ l1, x.2.score <
        (rest.foldl (fun acc p => if p.2.score > acc.2.score then p else acc) first).2.score) ∧
      (∀ x ∈ l2, x.2.score ≤
        (rest.foldl (fun acc p => if p.2.score > acc.2.score then p else acc) first).2.score) := by
  induction rest generalizing first with
  | nil => exact ⟨[], [], rfl, by simp, by simp⟩
  | cons x xs ih =>
    simp only [List.foldl_cons]
    by_cases hx : x.2.score > first.2.score
    · rw [if_pos hx]
      obtain ⟨l1, l2, hsplit, hlt, hle⟩ := ih x
      refine ⟨first :: l1, l2, ?_, ?_, hle⟩
      · rw [List.cons_append, ← hsplit]
      · intro z hz
        rcases List.mem_cons.mp hz with rfl | hz
        · exact lt_of_lt_of_le hx (foldBest_score_le x xs)
        · exact hlt z hz
    · rw [if_neg hx]
      obtain ⟨l1, l2, hsplit, hlt, hle⟩ := ih first
      cases l1 with
      | nil =>
        simp only [List.nil_append] at hsplit
        obtain ⟨hr, hl2⟩ := List.cons_eq_cons.mp hsplit
        refine ⟨[], x :: xs, ?_, by simp, ?_⟩
        · rw [List.nil_append, ← hr]
        · intro z hz
          rcases List.mem_cons.mp hz with rfl | hz
          · rw [← hr]; exact le_of_not_lt hx
          · rw [hl2] at hz; exact hle z hz
      | cons w l1' =>
        rw [List.cons_append] at hsplit
        obtain ⟨hw, hxs⟩ := List.cons_eq_cons.mp hsplit
        have hfirstlt : first.2.score <
            (xs.foldl (fun acc p => if p.2.score > acc.2.score then p else acc) first).2.score := by
          have hwl := hlt w (List.mem_cons_self w l1')
          rwa [← hw] at hwl
        refine ⟨first :: x :: l1', l2, ?_, ?_, hle⟩
        · rw [List.cons_append, List.cons_append, ← hxs]
        · intro z hz
          rcases List.mem_cons.mp hz with rfl | hz
          · exact hfirstlt
          · rcases List.mem_cons.mp hz with rfl | hz
            · exact lt_of_le_of_lt (le_of_not_lt hx) hfirstlt
            · exact hlt z (List.mem_cons_of_mem w hz)

/-- C3 amended: `match_activity` selects the first entry of the score dict
attaining the maximal score, in insertion order (path candidates are inserted
first, then keyword candidates in lookup order, then the source-hint
candidate, then the explicit-hint candidate): everything inserted before the
winner scores strictly less, everything after scores no more. -/
theorem C3_amended_first_max (scores : List (String × ScoreData))
    (e : String × ScoreData) (h : bestEntry scores = some e) :
    ∃ l1 l2, scores = l1 ++ e :: l2 ∧
      (∀ x ∈ l1, x.2.score < e.2.score) ∧
      (∀ x ∈ l2, x.2.score ≤ e.2.score) := by
  match scores, h with
  | first :: rest, h =>
    simp only [bestEntry, Option.some.injEq] at h
    obtain ⟨l1, l2, hsplit, hlt, hle⟩ := foldBest_first_max rest first
    rw [h] at hsplit hlt hle
    exact ⟨l1, l2, hsplit, hlt, hle⟩

/-- C7: serializing a Roadmap to its JSON dictionary form and loading it back
preserves every field and every enum value, for arbitrary projects, themes,
tasks, embedded activities and pending changes. -/
theorem C7_roadmap_roundtrip (now : DateTime) (r : Roadmap) :
    Roadmap.from_dict now (Roadmap.to_dict r) = some r := by
  obtain ⟨v, lu, ps, cs⟩ := r
  cases lu <;>
    simp [Roadmap.to_dict, Roadmap.from_dict, Json.get?, lookupField, getOptTime,
      getObjList, Json.truthy, optTimeJson,
      list_roundtrip_loop Project.to_dict Project.from_dict project_roundtrip,
      list_roundtrip_loop ProposedChange.to_dict (ProposedChange.from_dict now)
        (proposed_change_roundtrip now)]

/-- C4: under the automatic keyword-driven status rules, a theme whose status
is `complete` keeps status `complete` after `update_theme_statuses`, for
every activity batch and roadmap — the state machine has no branch for
`complete`, so only the explicit review CLI can leave it. -/
theorem C4_complete_never_auto_leaves (activities : List Activity) (now : DateTime)
    (rm : Roadmap) (i j : ℕ) (hi : i < rm.projects.length)
    (hj : j < (rm.projects.get ⟨i, hi⟩).themes.length)
    (hc : ((rm.projects.get ⟨i, hi⟩).themes.get ⟨j, hj⟩).status = .complete) :
    ∃ (hi' : i < (update_theme_statuses activities now rm).1.projects.length)
      (hj' : j <
        ((update_theme_statuses activities now rm).1.projects.get ⟨i, hi'⟩).themes.length),
      (((update_theme_statuses activities now rm).1.projects.get ⟨i, hi'⟩).themes.get
        ⟨j, hj'⟩).status = .complete := by
  have hstep : ∀ (p : String) (t : Theme), t.status = .complete →
      (step_theme activities now p t).1 = t := by
    intro p t ht
    simp [step_theme, ht]
  have hi' : i < (update_theme_statuses activities now rm).1.projects.length := by
    simpa [update_theme_statuses] using hi
  have hc' : ((rm.projects[i].themes[j]).status = ThemeStatus.complete) := by
    simpa [List.get_eq_getElem] using hc
  have hj' : j <
      ((update_theme_statuses activities now rm).1.projects.get ⟨i, hi'⟩).themes.length := by
    simpa [update_theme_statuses, List.get_eq_getElem, List.getElem_map] using hj
  refine ⟨hi', hj', ?_⟩
  have key : (((update_theme_statuses activities now rm).1.projects.get ⟨i, hi'⟩).themes.get
      ⟨j, hj'⟩) =
      (step_theme activities now (rm.projects[i].name) (rm.projects[i].themes[j])).1 := by
    simp only [update_theme_statuses, List.get_eq_getElem, List.getElem_map]
  rw [key, hstep _ _ hc']
  exact hc'

/-- Witness for C4 at a concrete roadmap with a complete theme and an
activity carrying a completion keyword attributed to that very theme. -/
theorem C4_complete_never_auto_leaves_witness :
    ∃ (hi' : 0 < (update_theme_statuses [actShipped] 5 rmComplete).1.projects.length)
      (hj' : 0 <
        ((update_theme_statuses [actShipped] 5 rmComplete).1.projects.get ⟨0, hi'⟩).themes.length),
      (((update_theme_statuses [actShipped] 5 rmComplete).1.projects.get ⟨0, hi'⟩).themes.get
        ⟨0, hj'⟩).status = .complete :=
  C4_complete_never_auto_leaves [actShipped] 5 rmComplete 0 0
    (by decide) (by decide) (by decide)

theorem set_approved_first_getElem_ne (cid : String) (v : Bool) :
    ∀ (cs : List ProposedChange) (i : ℕ) (c : ProposedChange),
      cs[i]? = some c → c.id ≠ cid →
      (set_approved_first cs cid v)[i]? = some c := by
  intro cs
  induction cs with
  | nil => intro i c hget _; simp at hget
  | cons c0 rest ih =>
    intro i c hget hne
    by_cases h0 : c0.id = cid
    · cases i with
      | zero =>
        rw [List.getElem?_cons_zero] at hget
        obtain rfl := Option.some.inj hget
        exact absurd h0 hne
      | succ n =>
        rw [List.getElem?_cons_succ] at hget
        simpa [set_approved_first, h0, List.getElem?_cons_succ] using hget
    · cases i with
      | zero =>
        rw [List.getElem?_cons_zero] at hget
        simpa [set_approved_first, h0, List.getElem?_cons_zero] using hget
      | succ n =>
        rw [List.getElem?_cons_succ] at hget
        simpa [set_approved_first, h0, List.getElem?_cons_succ] using ih n c hget hne

theorem apply_change_pending_cases (now : DateTime) (r : Roadmap) (cid : String)
    (r' : Roadmap) (bb : Bool) (h : apply_change now r cid = .ok (r', bb)) :
    r'.pending_changes = r.pending_changes ∨
    r'.pending_changes = set_approved_first r.pending_changes cid true := by
  unfold apply_change at h
  repeat' split at h
  all_goals
    first
      | (simp only [Except.ok.injEq, Prod.mk.injEq] at h
         obtain ⟨rfl, rfl⟩ := h
         first
           | exact Or.inl rfl
           | exact Or.inr rfl)
      | simp_all

theorem reject_change_pending_cases (r : Roadmap) (cid : String) :
    (reject_change r cid).1.pending_changes = r.pending_changes ∨
    (reject_change r cid).1.pending_changes = set_approved_first r.pending_changes cid false := by
  unfold reject_change
  split <;> simp

theorem approve_all_preserves (now : DateTime) (ids : List String) :
    ∀ (r : Roadmap) (i : ℕ) (c : ProposedChange),
      r.pending_changes[i]? = some c →
      (∀ cid ∈ ids, cid ≠ c.id) →
      ∀ r', ids.foldlM (fun r cid => (apply_change now r cid).map Prod.fst) r = .ok r' →
        r'.pending_changes[i]? = some c := by
  induction ids with
  | nil =>
    intro r i c hget _ r' h
    simp only [List.foldlM_nil] at h
    cases h
    exact hget
  | cons cid ids ih =>
    intro r i c hget hids r' h
    rw [List.foldlM_cons] at h
    cases happ : apply_change now r cid with
    | error e => rw [happ] at h; simp [Except.map, Bind.bind, Except.bind] at h
    | ok rb =>
      obtain ⟨r1, bb⟩ := rb
      rw [happ] at h
      simp only [Except.map, Bind.bind, Except.bind] at h
      have hcid : cid ≠ c.id := hids cid (List.mem_cons_self cid ids)
      have hget1 : r1.pending_changes[i]? = some c := by
        rcases apply_change_pending_cases now r cid r1 bb happ with hsame | hset
        · rw [hsame]; exact hget
        · rw [hset]; exact set_approved_first_getElem_ne cid true _ i c hget (Ne.symm hcid)
      exact ih r1 i c hget1 (fun x hx => hids x (List.mem_cons_of_mem _ hx)) r' h

theorem reject_all_preserves (ids : List String) :
    ∀ (r : Roadmap) (i : ℕ) (c : ProposedChange),
      r.pending_changes[i]? = some c →
      (∀ cid ∈ ids, cid ≠ c.id) →
      (ids.foldl (fun r cid => (reject_change r cid).1) r).pending_changes[i]? = some c := by
  induction ids with
  | nil => intro r i c hget _; exact hget
  | cons cid ids ih =>
    intro r i c hget hids
    rw [List.foldl_cons]
    have hcid : cid ≠ c.id := hids cid (List.mem_cons_self cid ids)
    have hget1 : (reject_change r cid).1.pending_changes[i]? = some c := by
      rcases reject_change_pending_cases r cid with hsame | hset
      · rw [hsame]; exact hget
      · rw [hset]; exact set_approved_first_getElem_ne cid false _ i c hget (Ne.symm hcid)
    exact ih _ i c hget1 (fun x hx => hids x (List.mem_cons_of_mem _ hx))

/-- C5: the claim says a decided ProposedChange is terminal: no subsequent
approve or reject operation changes its `approved` field again.  It is false:
`apply_change` looks the change up by id without inspecting its current
state, so `review.py approve <id>` re-approves an already-rejected change. -/
theorem C5_counterexample :
    rmDecided.pending_changes.map ProposedChange.approved = [some false] ∧
    apply_change 0 rmDecided "c1" =
      .ok ({ rmDecided with pending_changes := [{ cStale with approved := some true }] },
           true) :=
  ⟨rfl, rfl⟩

/-- C5 amended: a decided change is terminal under the bulk review workflow —
`approve all` and `reject all` compute the pending set (`approved is None`)
first and run only on those ids, so, provided change ids are unique, a
decided entry survives both operations entirely unchanged.  An approve or
reject that names the decided change's id explicitly can still overwrite it. -/
theorem C5_amended_decided_terminal_for_all (now : DateTime) (rm : Roadmap)
    (i : ℕ) (c : ProposedChange) (hget : rm.pending_changes[i]? = some c)
    (b : Bool) (hb : c.approved = some b)
    (hnd : (rm.pending_changes.map ProposedChange.id).Nodup) :
    (∀ rm', cmd_approve_all now rm = .ok rm' → rm'.pending_changes[i]? = some c) ∧
    (cmd_reject_all rm).pending_changes[i]? = some c := by
  have hcmem : c ∈ rm.pending_changes := List.mem_iff_getElem?.mpr ⟨i, hget⟩
  have hids : ∀ cid ∈ (rm.pending_changes.filter
      (fun c => c.approved = none)).map ProposedChange.id, cid ≠ c.id := by
    intro cid hcid
    obtain ⟨c2, hc2, hc2id⟩ := List.mem_map.mp hcid
    obtain ⟨hc2mem, hc2pending⟩ := List.mem_filter.mp hc2
    intro heq
    have : c2 = c :=
      List.inj_on_of_nodup_map hnd hc2mem hcmem (by rw [hc2id, heq])
    rw [this] at hc2pending
    simp [hb] at hc2pending
  constructor
  · intro rm' h
    exact approve_all_preserves now _ rm i c hget hids rm' h
  · exact reject_all_preserves _ rm i c hget hids

/-- Witness for the amended C5 theorem: in a roadmap with one pending and one
rejected change, `reject all` leaves the rejected entry untouched. -/
theorem C5_amended_decided_terminal_for_all_witness :
    (cmd_reject_all rmMixed).pending_changes[1]? = some cStale :=
  (C5_amended_decided_terminal_for_all 0 rmMixed 1 cStale rfl false rfl (by decide)).2

/-- C6: the claim says the daily-log merge deduplicates by
(description, source, minute-truncated timestamp) with only one survivor,
whether the duplicates are both in the log, both in the new batch, or one in
each.  It is false: in collectors/claude.py the key set is computed from the
existing log only and never extended, so two key-identical activities inside
the new batch are both appended (and duplicates already inside the log are
also both kept); in collectors/filesystem.py the key is (description, exact
timestamp) without source, so the same pair is not deduplicated at all. -/
theorem C6_counterexample :
    dedup_key_claude actDup = dedup_key_claude actDup2 ∧
    actDup.timestamp ≠ actDup2.timestamp ∧
    save_merge_claude [] [actDup, actDup2] = [actDup, actDup2] ∧
    save_merge_claude [actDup, actDup2] [] = [actDup, actDup2] ∧
    save_merge_fs [] [actDup, actDup2] = [actDup, actDup2] :=
  ⟨rfl, by decide, rfl, rfl, rfl⟩

theorem claude_merge_loop_count (ks : List (String × String × Int)) :
    ∀ (new acc : List Activity) (k : String × String × Int),
      countKeyC (new.foldl (fun acc a =>
        if dedup_key_claude a ∈ ks then acc else acc ++ [a]) acc) k =
        countKeyC acc k + (if k ∈ ks then 0 else countKeyC new k) := by
  intro new
  induction new with
  | nil => intro acc k; simp [countKeyC]
  | cons a rest ih =>
    intro acc k
    rw [List.foldl_cons]
    by_cases ha : dedup_key_claude a ∈ ks
    · rw [if_pos ha, ih]
      by_cases hk : k ∈ ks
      · simp [hk]
      · have hne : ¬ (dedup_key_claude a = k) := fun he => hk (he ▸ ha)
        simp [hk, countKeyC, List.countP_cons, hne]
    · rw [if_neg ha, ih]
      by_cases hk : k ∈ ks
      · have hne : ¬ (dedup_key_claude a = k) := fun he => ha (he ▸ hk)
        simp [hk, countKeyC, List.countP_append, List.countP_cons, hne]
      · simp [hk, countKeyC, List.countP_append, List.countP_cons]
        omega

theorem fs_merge_loop_count :
    ∀ (new : List Activity) (seen : List (String × Int)) (acc : List Activity)
      (k : String × Int),
      countKeyF (fs_merge_loop new seen acc) k =
        countKeyF acc k + (if k ∈ seen then 0 else min 1 (countKeyF new k)) := by
  intro new
  induction new with
  | nil => intro seen acc k; simp [fs_merge_loop, countKeyF]
  | cons a rest ih =>
    intro seen acc k
    by_cases ha : dedup_key_fs a ∈ seen
    · rw [fs_merge_loop, if_pos ha, ih]
      by_cases hk : k ∈ seen
      · simp [hk]
      · have hne : ¬ (dedup_key_fs a = k) := fun he => hk (he ▸ ha)
        simp [hk, countKeyF, List.countP_cons, hne]
    · rw [fs_merge_loop, if_neg ha, ih]
      by_cases hak : dedup_key_fs a = k
      · subst hak
        have hk : ¬ (dedup_key_fs a ∈ seen) := ha
        simp [hk, countKeyF, List.countP_append, List.countP_cons]
      · by_cases hk : k ∈ seen
        · have hk' : k ∈ dedup_key_fs a :: seen := List.mem_cons_of_mem _ hk
          simp [hk, hk', countKeyF, List.countP_append, List.countP_cons, hak]
        · have hk' : ¬ (k ∈ dedup_key_fs a :: seen) := by
            intro hmem
            rcases List.mem_cons.mp hmem with he | he
            · exact hak he.symm
            · exact hk he
          simp [hk, hk', countKeyF, List.countP_append, List.countP_cons, hak]

/-- C6 amended: the de-duplication keys and survivors are: in claude.py the
key is (description, source, minute-truncated timestamp) and a new activity
is dropped exactly when its key already occurs in the loaded log — duplicates
within the new batch, or already within the log, all survive; in
filesystem.py the key is (description, exact timestamp) — no source, no
minute truncation — and the new batch is additionally deduplicated against
itself (at most one new activity per key is appended). -/
theorem C6_amended_dedup_semantics :
    (∀ (existing new : List Activity) (k : String × String × Int),
      countKeyC (save_merge_claude existing new) k =
        countKeyC existing k +
          (if k ∈ existing.map dedup_key_claude then 0 else countKeyC new k)) ∧
    (∀ (existing new : List Activity) (k : String × Int),
      countKeyF (save_merge_fs existing new) k =
        countKeyF existing k +
          (if k ∈ existing.map dedup_key_fs then 0 else min 1 (countKeyF new k))) :=
  ⟨fun existing new k => claude_merge_loop_count (existing.map dedup_key_claude) new existing k,
   fun existing new k => fs_merge_loop_count new (existing.map dedup_key_fs) existing k⟩

/-- C8: the claim says a missing config file is treated as an empty default
and `collect_activities` still completes and returns a list.  It is false for
the collectors: their shared `load_config` opens settings.json and
projects.json with no guard, so a missing file raises `FileNotFoundError`
out of `collect_activities`. -/
theorem C8_counterexample :
    collect_activities_git none (some (.obj [])) {} [] = .error .fileNotFound ∧
    collect_activities_git (some (.obj [])) none {} [] = .error .fileNotFound :=
  ⟨rfl, rfl⟩

/-- C8 amended: only agent/simple_recap.py degrades gracefully — a missing
overrides.json becomes the empty default config, and `collect_all` swallows
collector exceptions, returning whatever the surviving collectors produced;
but the collectors' own `load_config` raises `FileNotFoundError` when
settings.json or projects.json is missing, aborting `collect_activities`. -/
theorem C8_amended_config_handling :
    load_overrides none =
      .obj [("names", .obj []), ("teams", .obj []), ("exclude", .arr [])] ∧
    (∀ (s? p? : Option Json) (pc : ProjectsConfig) (repos : List RepoData),
      s? = none ∨ p? = none →
      collect_activities_git s? p? pc repos = .error .fileNotFound) ∧
    (∀ e1 e2 : PyErr, collect_all_simple (.error e1) (.error e2) = []) ∧
    (∀ l1 l2 : List Activity, collect_all_simple (.ok l1) (.ok l2) = l1 ++ l2) := by
  refine ⟨rfl, ?_, fun e1 e2 => rfl, fun l1 l2 => rfl⟩
  rintro s? p? pc repos (rfl | rfl)
  · rfl
  · cases s? <;> rfl

/-- Witness for the amended C8 theorem at a concrete missing settings.json. -/
theorem C8_amended_config_handling_witness :
    collect_activities_git none (some (.obj [])) {} [{ repo_path := "/r" }] =
      .error .fileNotFound :=
  C8_amended_config_handling.2.1 none (some (.obj [])) {} [{ repo_path := "/r" }]
    (Or.inl rfl)

theorem mem_ite_iff {α : Type} {c : Prop} [Decidable c] {l1 l2 : List α} {a : α} :
    (a ∈ if c then l1 else l2) ↔ (c ∧ a ∈ l1) ∨ (¬ c ∧ a ∈ l2) := by
  split <;> simp_all

theorem isHigh_true_iff (l : RecapLine) :
    isHighUncatWarning l = true ↔ ∃ p : ℤ, l = .high_uncat_warning p := by
  cases l <;> simp [isHighUncatWarning]

theorem hw_not_mem_summary (p : ℤ) (now : DateTime) (c : Categorized) :
    RecapLine.high_uncat_warning p ∉ recap_summary_lines now c := by
  simp [recap_summary_lines]

theorem hw_not_mem_claude (p : ℤ) (cs? : Option ClaudeSummary) :
    RecapLine.high_uncat_warning p ∉ recap_claude_lines cs? := by
  rcases cs? with _ | cs <;> simp [recap_claude_lines, mem_ite_iff]

theorem hw_not_mem_dist (p : ℤ) (dist : List (String × ℕ × ℤ)) :
    RecapLine.high_uncat_warning p ∉ recap_dist_lines dist := by
  simp [recap_dist_lines, mem_ite_iff, List.mem_map]

theorem hw_not_mem_theme (p : ℤ) (c : Categorized) (rm : Roadmap) :
    RecapLine.high_uncat_warning p ∉ recap_theme_lines c rm := by
  intro h
  unfold recap_theme_lines at h
  rcases List.mem_cons.mp h with h | h
  · simp at h
  · obtain ⟨x, hx, hmem⟩ := List.mem_flatten.mp h
    obtain ⟨pr, hpr, rfl⟩ := List.mem_map.mp hx
    by_cases hp : ((pyLookup c.by_project pr.name).getD []).isEmpty
    · simp [hp] at hmem
    · rw [if_neg (by simpa using hp)] at hmem
      rcases List.mem_cons.mp hmem with hmem | hmem
      · simp at hmem
      · obtain ⟨t, ht, heq⟩ := List.mem_filterMap.mp hmem
        split at heq <;> simp at heq

theorem hw_not_mem_uncat (p : ℤ) (c : Categorized) :
    RecapLine.high_uncat_warning p ∉ recap_uncat_lines c := by
  intro h
  unfold recap_uncat_lines at h
  rcases mem_ite_iff.mp h with ⟨_, hmem⟩ | ⟨_, hmem⟩
  · rcases List.mem_cons.mp hmem with hmem | hmem
    · simp at hmem
    · rcases List.mem_append.mp hmem with hmem | hmem
      · obtain ⟨a, _, heq⟩ := List.mem_map.mp hmem
        simp at heq
      · rcases mem_ite_iff.mp hmem with ⟨_, hmem⟩ | ⟨_, hmem⟩ <;> simp at hmem
  · simp at hmem

theorem hw_not_mem_changes (p : ℤ) (changes : List ProposedChange) :
    RecapLine.high_uncat_warning p ∉ recap_change_lines changes := by
  intro h
  unfold recap_change_lines at h
  rcases mem_ite_iff.mp h with ⟨_, hmem⟩ | ⟨_, hmem⟩
  · rcases List.mem_cons.mp hmem with hmem | hmem
    · simp at hmem
    · obtain ⟨x, hx, hmemx⟩ := List.mem_flatten.mp hmem
      obtain ⟨ic, _, rfl⟩ := List.mem_map.mp hx
      rcases List.mem_cons.mp hmemx with hmemx | hmemx
      · simp at hmemx
      · rcases mem_ite_iff.mp hmemx with ⟨_, hmemx⟩ | ⟨_, hmemx⟩
        · obtain ⟨a, _, heq⟩ := List.mem_map.mp hmemx
          simp at heq
        · simp at hmemx
  · simp at hmem

theorem hw_not_mem_wins (p : ℤ) (wins : List Win) :
    RecapLine.high_uncat_warning p ∉ recap_wins_lines wins := by
  intro h
  unfold recap_wins_lines at h
  rcases mem_ite_iff.mp h with ⟨_, hmem⟩ | ⟨_, hmem⟩
  · rcases List.mem_cons.mp hmem with hmem | hmem
    · simp at hmem
    · obtain ⟨x, hx, hmemx⟩ := List.mem_flatten.mp hmem
      obtain ⟨w, _, rfl⟩ := List.mem_map.mp hx
      rcases List.mem_cons.mp hmemx with hmemx | hmemx
      · simp at hmemx
      · rcases List.mem_cons.mp hmemx with hmemx | hmemx <;> simp at hmemx
  · simp at hmem

/-- C9: the claim says a batch whose uncategorized rate exceeds 25% surfaces
a distinct high-uncategorized warning in the aggregator's summary output.  It
is false for the current agent formatter: `format_recap` of agent/nightly.py
has no such warning anywhere — at a 50% uncategorized rate no line of its
output is the high-uncategorized flag (only the archived formatter emits
it). -/
theorem C9_counterexample :
    (catHigh.uncategorized.length : ℚ) / (catHigh.summary.total_activities : ℚ) > 0.25 ∧
    ∀ l ∈ format_recap_agent 0 catHigh [] {} [] none, isHighUncatWarning l = false := by
  constructor
  · show ((2 : ℚ)) / 4 > 0.25
    norm_num
  · decide

/-- C9 amended: the archived formatter (_archive/nightly.py) emits the
distinct HIGH UNCATEGORIZED warning exactly when the batch is non-empty and
its uncategorized rate is strictly above 25%; the current agent formatter
(agent/nightly.py) never emits it — the condition is silently absorbed
there. -/
theorem C9_amended_high_uncat_warning :
    (∀ (now : DateTime) (c : Categorized) (changes : List ProposedChange) (rm : Roadmap)
        (dist : List (String × ℕ × ℤ)) (cs? : Option ClaudeSummary) (wins : List Win),
      (∃ l ∈ format_recap_archive now c changes rm dist cs? wins,
          isHighUncatWarning l = true) ↔
        (0 < c.summary.total_activities ∧
          (c.uncategorized.length : ℚ) / (c.summary.total_activities : ℚ) > 0.25)) ∧
    (∀ (now : DateTime) (c : Categorized) (changes : List ProposedChange) (rm : Roadmap)
        (dist : List (String × ℕ × ℤ)) (cs? : Option ClaudeSummary),
      ∀ l ∈ format_recap_agent now c changes rm dist cs?,
        isHighUncatWarning l = false) := by
  constructor
  · intro now c changes rm dist cs? wins
    constructor
    · rintro ⟨l, hl, hhigh⟩
      obtain ⟨p, rfl⟩ := (isHigh_true_iff l).mp hhigh
      unfold format_recap_archive at hl
      simp only [List.append_assoc] at hl
      rcases List.mem_append.mp hl with hl | hl
      · exact absurd hl (hw_not_mem_summary p now c)
      rcases List.mem_append.mp hl with hl | hl
      swap
      · rcases List.mem_append.mp hl with hl | hl
        · exact absurd hl (hw_not_mem_wins p wins)
        rcases List.mem_append.mp hl with hl | hl
        · exact absurd hl (hw_not_mem_claude p cs?)
        rcases List.mem_append.mp hl with hl | hl
        · exact absurd hl (hw_not_mem_dist p dist)
        rcases List.mem_append.mp hl with hl | hl
        · exact absurd hl (hw_not_mem_theme p c rm)
        rcases List.mem_append.mp hl with hl | hl
        · exact absurd hl (hw_not_mem_uncat p c)
        rcases List.mem_append.mp hl with hl | hl
        · exact absurd hl (hw_not_mem_changes p changes)
        · simp at hl
      · unfold recap_warning_lines at hl
        rcases List.mem_append.mp hl with hl | hl
        · rcases mem_ite_iff.mp hl with ⟨_, hmem⟩ | ⟨_, hmem⟩ <;> simp at hmem
        · rcases mem_ite_iff.mp hl with ⟨hcond, _⟩ | ⟨_, hmem⟩
          · exact hcond
          · simp at hmem
    · intro hcond
      refine ⟨.high_uncat_warning
        ⌊(c.uncategorized.length : ℚ) / (c.summary.total_activities : ℚ) * 100⌋, ?_, rfl⟩
      unfold format_recap_archive
      simp only [List.append_assoc]
      apply List.mem_append.mpr
      right
      apply List.mem_append.mpr
      left
      unfold recap_warning_lines
      apply List.mem_append.mpr
      right
      rw [if_pos hcond]
      exact List.mem_cons_self _ _
  · intro now c changes rm dist cs? l hl
    by_contra hg
    rw [Bool.not_eq_false] at hg
    obtain ⟨p, rfl⟩ := (isHigh_true_iff l).mp hg
    unfold format_recap_agent at hl
    simp only [List.append_assoc] at hl
    rcases List.mem_append.mp hl with hl | hl
    · exact absurd hl (hw_not_mem_summary p now c)
    rcases List.mem_append.mp hl with hl | hl
    · exact absurd hl (hw_not_mem_claude p cs?)
    rcases List.mem_append.mp hl with hl | hl
    · exact absurd hl (hw_not_mem_dist p dist)
    rcases List.mem_append.mp hl with hl | hl
    · exact absurd hl (hw_not_mem_theme p c rm)
    rcases List.mem_append.mp hl with hl | hl
    · exact absurd hl (hw_not_mem_uncat p c)
    rcases List.mem_append.mp hl with hl | hl
    · exact absurd hl (hw_not_mem_changes p changes)
    · simp at hl

/-- C10: both team-distribution calculations are total and never divide by
zero: the agent version returns the empty distribution when the total
classified count is zero and otherwise the integer-rounded share
`round(count / total * 100)` per team; the simple_recap version divides by
`sum(...) or 1`, so a zero total yields all-zero percentages instead of
failing. -/
theorem C10_team_distribution (c : Categorized) (rm : Roadmap)
    (get_team : String → String) (bp : List (String × ℕ)) :
    (nightly_team_total c rm = 0 → calculate_team_distribution c rm = []) ∧
    (nightly_team_total c rm ≠ 0 →
      ∀ e ∈ calculate_team_distribution c rm,
        e.2.2 = pyRound ((e.2.1 : ℚ) / (nightly_team_total c rm : ℚ) * 100)) ∧
    (simple_team_total get_team bp = 0 →
      ∀ e ∈ calculate_team_distribution_simple get_team bp, e.2 = 0) ∧
    (simple_team_total get_team bp ≠ 0 →
      ∀ e ∈ calculate_team_distribution_simple get_team bp,
        ∃ n : ℕ, e.2 = pyRound ((n : ℚ) / (simple_team_total get_team bp : ℚ) * 100)) := by
  refine ⟨?_, ?_, ?_, ?_⟩
  · intro h
    simp [calculate_team_distribution, h]
  · intro h e he
    unfold calculate_team_distribution at he
    rw [if_neg h] at he
    obtain ⟨tc, htc, rfl⟩ := List.mem_map.mp he
    rfl
  · intro h e he
    unfold calculate_team_distribution_simple at he
    obtain ⟨tc, htc, rfl⟩ := List.mem_map.mp he
    have hz : tc.2 = 0 := by
      have hmem : tc.2 ∈ (simple_team_counts get_team bp).map (fun tc => tc.2) :=
        List.mem_map.mpr ⟨tc, htc, rfl⟩
      exact List.sum_eq_zero_iff.mp h _ hmem
    rw [if_pos h, hz]
    norm_num [pyRound]
  · intro h e he
    unfold calculate_team_distribution_simple at he
    obtain ⟨tc, htc, rfl⟩ := List.mem_map.mp he
    rw [if_neg h]
    exact ⟨tc.2, rfl⟩

/-- Witness for C10: the agent distribution of an empty batch against an
empty roadmap is the empty dict, and the simple_recap distribution of a
single three-activity project reports the rounded share of its team. -/
theorem C10_team_distribution_witness :
    calculate_team_distribution {} {} = [] ∧
    (∀ e ∈ calculate_team_distribution_simple (fun _ => "T") [("P", 3)],
      ∃ n : ℕ,
        e.2 = pyRound ((n : ℚ) / (simple_team_total (fun _ => "T") [("P", 3)] : ℚ) * 100)) := by
  have h := C10_team_distribution {} {} (fun _ => "T") [("P", 3)]
  exact ⟨h.1 rfl, h.2.2.2 (by decide)⟩

/-- Witness for the amended C3 theorem: at the tied two-entry score dict the
winner is the first entry. -/
theorem C3_amended_first_max_witness :
    ∃ l1 l2,
      cfgTieAB.match_scores actTie = l1 ++
        ("Alpha", { score := 3/20, signals := [.keyword_match], theme_id := none }) :: l2 ∧
      (∀ x ∈ l1, x.2.score < (3/20 : ℚ)) ∧
      (∀ x ∈ l2, x.2.score ≤ (3/20 : ℚ)) :=
  C3_amended_first_max (cfgTieAB.match_scores actTie)
    ("Alpha", { score := 3/20, signals := [.keyword_match], theme_id := none })
    (by with_unfolding_all decide)

end Tracker
